import Mathlib

/-!
Shallow embedding of the dp-refactor DataProduct service: the handler chain
(base `Handler` from src/unnamed/part_004), the concrete handlers, the v1/v2
strategies, the strategy factory, and the repository over an abstract
document store.  Asynchronous methods are modelled as pure state
transformers on the store; a raised error is an explicit `err` result, and
possible non-termination is made observable through an explicit fuel bound
(`fuelOut` means the fuel ran out before the call returned).
-/

/-- JavaScript-style falsiness of an optional string field: absent or empty. -/
def falsy : Option String → Bool
  | none => true
  | some s => s = ""

/-- Length of a string after trimming spaces, computed on its character
list. -/
def trimmedLength (s : String) : Nat :=
  ((s.data.dropWhile fun c => c = ' ').reverse.dropWhile fun c =>
    c = ' ').length

/-- Modelled from the spec: the DataProductDto class file is missing from src;
its fields follow the source's usage (id, name, infoport in the mapper and
the validation handler) together with the creation and update timestamps the
spec describes on the resource record. -/
structure DataProductDto where
  id : Option String := none
  name : Option String := none
  infoport : Option String := none
  createdAt : Option String := none
  updatedAt : Option String := none
deriving Repr, DecidableEq

/-- Persisted fields of a stored document (the document minus its key). -/
structure EntityFields where
  name : Option String := none
  infoport : Option String := none
deriving Repr, DecidableEq

/-- Modelled from the spec: the external DataProductModel persistence (the
document database, out of scope of the core) as a keyed document store. -/
structure ModelSt where
  docs : List (String × EntityFields) := []
deriving Repr, DecidableEq

/-- DataProductModel.findById: look a document up by its key. -/
def modelFindById (i : String) (st : ModelSt) : Option EntityFields :=
  st.docs.lookup i

/-- DataProductModel.findByIdAndUpdate with option new set: replace the stored
fields and return the updated document, or null when the key is unknown. -/
def modelFindByIdAndUpdate (i : String) (e : EntityFields) (st : ModelSt) :
    Option EntityFields × ModelSt :=
  match st.docs.lookup i with
  | none => (none, st)
  | some _ => (some e, ⟨st.docs.map fun kv => if kv.1 = i then (i, e) else kv⟩)

/-- DataProductModel.findByIdAndDelete: remove the document when present,
returning it; null and no change when the key is unknown. -/
def modelFindByIdAndDelete (i : String) (st : ModelSt) :
    Option EntityFields × ModelSt :=
  match st.docs.lookup i with
  | none => (none, st)
  | some e => (some e, ⟨st.docs.filter fun kv => kv.1 ≠ i⟩)

/-- DataProductMapper.toDto (src mapper): a stored document read back as a
DTO; the document's key becomes the DTO id, and the mapped DTO carries no
timestamp fields. -/
def DataProductMapper.toDto (i : String) (e : EntityFields) : DataProductDto :=
  { id := some i, name := e.name, infoport := e.infoport }

/-- Modelled from the spec: DataProductMapper.toEntity is called by the src
repository but missing from the src mapper; it carries the persisted
non-identifier fields of the DTO. -/
def DataProductMapper.toEntity (dto : DataProductDto) : EntityFields :=
  { name := dto.name, infoport := dto.infoport }

/-- DataProductRepository.findById (src repository). -/
def DataProductRepository.findById (i : String) (st : ModelSt) :
    Option DataProductDto :=
  (modelFindById i st).map (DataProductMapper.toDto i)

/-- DataProductRepository.update (src repository): resolves with the updated
DTO, or with null when the id is unknown; it never throws.  Callers pass
dto.id, which may be absent, and a lookup with an absent id finds nothing. -/
def DataProductRepository.update (i : Option String) (dto : DataProductDto)
    (st : ModelSt) : Option DataProductDto × ModelSt :=
  match i with
  | none => (none, st)
  | some i =>
    match modelFindByIdAndUpdate i (DataProductMapper.toEntity dto) st with
    | (none, st') => (none, st')
    | (some e, st') => (some (DataProductMapper.toDto i e), st')

/-- DataProductRepository.delete (src repository): deletes the document when
present and resolves void either way; it never throws. -/
def DataProductRepository.delete (i : String) (st : ModelSt) : ModelSt :=
  (modelFindByIdAndDelete i st).2

/-- The typed errors the embedded code can raise. -/
inductive ErrKind where
  | validationFailed
  | unsupportedVersion (v : String)
  | typeError
deriving Repr, DecidableEq

/-- Outcome of running a handler or a chain on the store: success, a raised
error, or exhaustion of the fuel bound (standing for non-termination). -/
inductive RunRes where
  | ok (st : ModelSt)
  | err (e : ErrKind) (st : ModelSt)
  | fuelOut (st : ModelSt)
deriving Repr, DecidableEq

/-- A handler step: context and store in, run result out. -/
abbrev Hdl := DataProductDto → ModelSt → RunRes

/-- Handler.handle (src/unnamed/part_004) over a setNext-linked chain, given
as the list of the successive process steps: run this handler's process and,
only on success, the successor's handle; the empty chain is a no-op. -/
def Handler.handle : List Hdl → DataProductDto → ModelSt → RunRes
  | [], _, st => .ok st
  | p :: rest, ctx, st =>
    match p ctx st with
    | .ok st' => Handler.handle rest ctx st'
    | r => r

/-- Handler.handle instrumented with the trace of the labels of the process
steps that were actually invoked. -/
def Handler.handleTrace : List (Nat × Hdl) → DataProductDto → ModelSt →
    List Nat × RunRes
  | [], _, st => ([], .ok st)
  | (l, p) :: rest, ctx, st =>
    match p ctx st with
    | .ok st' =>
      let r := Handler.handleTrace rest ctx st'
      (l :: r.1, r.2)
    | r => ([l], r)

/-- ValidateUpdateHandler.process (src): throws when name or infoport is
falsy; it inspects nothing else and never touches the store. -/
def ValidateUpdateHandler.process : Hdl := fun dto st =>
  if falsy dto.name || falsy dto.infoport then .err .validationFailed st
  else .ok st

/-- Modelled from the spec: BusinessUpdateHandler (the v1 business-update
handler) is imported by the v1 strategy but its file is missing from src;
per the spec it persists the update as a direct overwrite through the
Repository, propagating repository errors — of which the src repository
raises none (an unknown id resolves null and is ignored). -/
def BusinessUpdateHandler.process : Hdl := fun dto st =>
  .ok (DataProductRepository.update dto.id dto st).2

/-- Modelled from the spec: AuditUpdateHandler is imported by the strategies
but its file is missing from src; per the spec it records a side-channel
audit entry (a log) and never touches the Repository. -/
def AuditUpdateHandler.process : Hdl := fun _ st => .ok st

/-- MessageUpdateHandler.process (src/unnamed/part_005): only logs. -/
def MessageUpdateHandler.process : Hdl := fun _ st => .ok st

/-- AuditCreateHandler.process (src/unnamed/part_003): only logs. -/
def AuditCreateHandler.process : Hdl := fun _ st => .ok st

/-- BusinessCreateHandler.process (src/unnamed/part_003): an empty stub whose
body is only a comment; it performs no action at all. -/
def BusinessCreateHandler.process : Hdl := fun _ st => .ok st

/-- Modelled from the spec: ValidateCreateHandler is imported by the v1
strategy but its file is missing from src; per the spec it rejects a create
whose name is absent or shorter than the minimum length after trimming. -/
def ValidateCreateHandler.process : Hdl := fun dto st =>
  match dto.name with
  | none => .err .validationFailed st
  | some s =>
    if trimmedLength s < 3 then .err .validationFailed st else .ok st

/-- BusinessUpdateHandlerV2.process (src/unnamed/part_004): persists through
Repository.update and then re-invokes the inherited handle on itself with
the returned record; next is the linked successor chain and fuel bounds the
recursion depth.  When the repository resolves null, the recursive handle
dereferences null (a TypeError). -/
def BusinessUpdateHandlerV2.process (next : Hdl) :
    Nat → DataProductDto → ModelSt → RunRes
  | 0, _, st => .fuelOut st
  | fuel + 1, dto, st =>
    match DataProductRepository.update dto.id dto st with
    | (some u, st') =>
      match BusinessUpdateHandlerV2.process next fuel u st' with
      | .ok st'' => next u st''
      | r => r
    | (none, st') => .err .typeError st'

/-- Handler.handle as inherited by BusinessUpdateHandlerV2: its own process,
then — only on success — the linked successor. -/
def BusinessUpdateHandlerV2.handle (next : Hdl) (fuel : Nat)
    (dto : DataProductDto) (st : ModelSt) : RunRes :=
  match BusinessUpdateHandlerV2.process next fuel dto st with
  | .ok st' => next dto st'
  | r => r

/-- Outcome of a strategy operation: the returned DTO with the final store,
a raised error, or fuel exhaustion. -/
inductive OpRes where
  | ok (d : DataProductDto) (st : ModelSt)
  | err (e : ErrKind) (st : ModelSt)
  | fuelOut (st : ModelSt)
deriving Repr, DecidableEq

/-- The create chain wired by DataProductStrategyV1.create: validate,
business, audit. -/
def v1CreateChain : List Hdl :=
  [ValidateCreateHandler.process, BusinessCreateHandler.process,
   AuditCreateHandler.process]

/-- DataProductStrategyV1.create (src): runs the create chain on the DTO and
returns the very same DTO object. -/
def DataProductStrategyV1.create (dto : DataProductDto) (st : ModelSt) :
    OpRes :=
  match Handler.handle v1CreateChain dto st with
  | .ok st' => .ok dto st'
  | .err e st' => .err e st'
  | .fuelOut st' => .fuelOut st'

/-- The update chain wired by DataProductStrategyV1.update: validate,
business v1, audit, message. -/
def v1UpdateChain : List Hdl :=
  [ValidateUpdateHandler.process, BusinessUpdateHandler.process,
   AuditUpdateHandler.process, MessageUpdateHandler.process]

/-- The v1 update chain with stage labels 0 to 3, for observing which stages
were invoked. -/
def v1UpdateChainL : List (Nat × Hdl) :=
  [(0, ValidateUpdateHandler.process), (1, BusinessUpdateHandler.process),
   (2, AuditUpdateHandler.process), (3, MessageUpdateHandler.process)]

/-- DataProductStrategyV1.update (src): stamps the identifier onto the DTO,
runs the update chain, and returns the stamped DTO object itself. -/
def DataProductStrategyV1.update (i : String) (dto : DataProductDto)
    (st : ModelSt) : OpRes :=
  let d := { dto with id := some i }
  match Handler.handle v1UpdateChain d st with
  | .ok st' => .ok d st'
  | .err e st' => .err e st'
  | .fuelOut st' => .fuelOut st'

/-- The successor chain linked after the v2 business handler: audit then
message. -/
def auditMessageHdl : Hdl := fun dto st =>
  Handler.handle [AuditUpdateHandler.process, MessageUpdateHandler.process]
    dto st

/-- DataProductStrategyV2.update (src): stamps the identifier, runs validate,
then the v2 business handler with audit and message linked after it, and
returns the stamped DTO object. -/
def DataProductStrategyV2.update (fuel : Nat) (i : String)
    (dto : DataProductDto) (st : ModelSt) : OpRes :=
  let d := { dto with id := some i }
  match ValidateUpdateHandler.process d st with
  | .ok st1 =>
    match BusinessUpdateHandlerV2.handle auditMessageHdl fuel d st1 with
    | .ok st2 => .ok d st2
    | .err e st2 => .err e st2
    | .fuelOut st2 => .fuelOut st2
  | .err e st1 => .err e st1
  | .fuelOut st1 => .fuelOut st1

/-- DataProductStrategyV2.create (src): delegates to the v1 strategy
unchanged. -/
def DataProductStrategyV2.create (dto : DataProductDto) (st : ModelSt) :
    OpRes :=
  DataProductStrategyV1.create dto st

/-- The strategy instances the factory binds. -/
inductive StrategyTag where
  | v1
  | v2
deriving Repr, DecidableEq

/-- DataProductStrategyFactory.getStrategy (src, the complete factory
definition): v1 and v2 resolve to their strategies; any other token throws
an unsupported-version error. -/
def DataProductStrategyFactory.getStrategy (version : String) :
    Except ErrKind StrategyTag :=
  if version = "v1" then .ok .v1
  else if version = "v2" then .ok .v2
  else .error (.unsupportedVersion version)

/-- The empty store. -/
def st0 : ModelSt := ⟨[]⟩

/-- A store holding the single record with id 1 named Catalog A. -/
def stCat : ModelSt :=
  ⟨[("1", { name := some "Catalog A", infoport := some "X" })]⟩

/-- The store after record 1 was renamed. -/
def stRen : ModelSt :=
  ⟨[("1", { name := some "Renamed", infoport := some "X" })]⟩

/-- An update DTO that renames record 1, already carrying the identifier. -/
def dtoRen : DataProductDto :=
  { id := some "1", name := some "Renamed", infoport := some "X" }

/-- The rename DTO as a client would send it, before identifier stamping. -/
def dtoRenBody : DataProductDto :=
  { name := some "Renamed", infoport := some "X" }

/-- A DTO with no name field. -/
def dtoNoName : DataProductDto := { id := some "1", infoport := some "X" }

/-- A DTO with no identifier but a valid name and infoport. -/
def dtoNoId : DataProductDto :=
  { name := some "Valid Name", infoport := some "X" }

/-- A DTO whose trimmed name is shorter than the spec's minimum length. -/
def dtoShortName : DataProductDto :=
  { id := some "1", name := some "ab", infoport := some "X" }

/-- A well-formed update DTO without an identifier. -/
def dtoNP : DataProductDto := { name := some "N", infoport := some "P" }

/-- The same DTO after the identifier a was stamped onto it. -/
def dtoNPa : DataProductDto :=
  { id := some "a", name := some "N", infoport := some "P" }

/-- The same DTO after the identifier x was stamped onto it. -/
def dtoXa : DataProductDto :=
  { id := some "x", name := some "N", infoport := some "P" }

/-- A create DTO carrying a client-chosen identifier and client-chosen
timestamps. -/
def dtoClient : DataProductDto :=
  { id := some "client-chosen-id", name := some "Catalog A",
    infoport := some "X", createdAt := some "1999-01-01",
    updatedAt := some "1999-01-01" }

theorem lookup_map_update (l : List (String × EntityFields)) (i : String)
    (e : EntityFields) (h : (l.lookup i).isSome) :
    (l.map fun kv => if kv.1 = i then (i, e) else kv).lookup i = some e := by
  induction l with
  | nil => simp [List.lookup] at h
  | cons kv l ih =>
    obtain ⟨k, v⟩ := kv
    simp only [List.map_cons]
    by_cases hk : k = i
    · subst hk
      rw [if_pos rfl]
      simp [List.lookup]
    · rw [if_neg hk]
      have hne : (i == k) = false := by
        simp only [beq_eq_false_iff_ne, ne_eq]
        exact fun hik => hk hik.symm
      simp only [List.lookup, hne] at h ⊢
      exact ih h

theorem businessUpdateV2_process_spins (next : Hdl) :
    ∀ (fuel : Nat) (dto : DataProductDto) (st : ModelSt) (i : String),
      dto.id = some i → (st.docs.lookup i).isSome →
      ∃ st', BusinessUpdateHandlerV2.process next fuel dto st = .fuelOut st' := by
  intro fuel
  induction fuel with
  | zero => intro dto st i _ _; exact ⟨st, rfl⟩
  | succ fuel ih =>
    intro dto st i hid hmem
    obtain ⟨x, hx⟩ := Option.isSome_iff_exists.mp hmem
    have hupd :
        DataProductRepository.update dto.id dto st =
          (some (DataProductMapper.toDto i (DataProductMapper.toEntity dto)),
            ⟨st.docs.map fun kv =>
              if kv.1 = i then (i, DataProductMapper.toEntity dto) else kv⟩) := by
      rw [hid]
      simp [DataProductRepository.update, modelFindByIdAndUpdate, hx]
    obtain ⟨st', hst'⟩ :=
      ih (DataProductMapper.toDto i (DataProductMapper.toEntity dto))
        ⟨st.docs.map fun kv =>
          if kv.1 = i then (i, DataProductMapper.toEntity dto) else kv⟩ i rfl
        (by
          rw [show (⟨st.docs.map fun kv =>
                if kv.1 = i then (i, DataProductMapper.toEntity dto) else kv⟩ :
              ModelSt).docs = st.docs.map fun kv =>
                if kv.1 = i then (i, DataProductMapper.toEntity dto) else kv from rfl,
            lookup_map_update st.docs i (DataProductMapper.toEntity dto) hmem]
          rfl)
    refine ⟨st', ?_⟩
    rw [show BusinessUpdateHandlerV2.process next (fuel + 1) dto st =
      (match DataProductRepository.update dto.id dto st with
        | (some u, st') =>
          match BusinessUpdateHandlerV2.process next fuel u st' with
          | .ok st'' => next u st''
          | r => r
        | (none, st') => .err .typeError st') from rfl, hupd]
    simp [hst']

/-- C9: BusinessUpdateHandlerV2.process re-invokes the inherited handle on
itself with the record the repository returned, so its own process
re-executes before any linked successor is reached; whenever the DTO carries
an identifier stored in the Repository (so Repository.update always resolves
with a record), both the process and an invocation of the handler's handle
exhaust every fuel bound — the call never terminates. -/
theorem businessUpdateV2_handle_diverges (next : Hdl) (fuel : Nat)
    (dto : DataProductDto) (st : ModelSt) (i : String)
    (hid : dto.id = some i) (hmem : (st.docs.lookup i).isSome) :
    (∃ st', BusinessUpdateHandlerV2.process next fuel dto st = .fuelOut st') ∧
    (∃ st', BusinessUpdateHandlerV2.handle next fuel dto st = .fuelOut st') := by
  obtain ⟨st', h⟩ := businessUpdateV2_process_spins next fuel dto st i hid hmem
  exact ⟨⟨st', h⟩, ⟨st', by simp [BusinessUpdateHandlerV2.handle, h]⟩⟩

/-- Witness for C9 at a concrete input: record 1 is stored, the DTO targets
id 1, and the v2 business handler's handle runs out of any fuel (here 3). -/
theorem businessUpdateV2_handle_diverges_witness :
    ∃ st', BusinessUpdateHandlerV2.handle auditMessageHdl 3 dtoRen stCat =
      .fuelOut st' :=
  (businessUpdateV2_handle_diverges auditMessageHdl 3 dtoRen stCat "1"
    (by decide) (by decide)).2

/-- C4: in a chain pre, p, post where every stage of pre succeeds and p's
process raises an error, handle invokes exactly the stages of pre and then
p — no stage of post ever runs — and the error propagates unchanged to the
chain's caller as the result. -/
theorem handler_chain_halts_at_first_error (pre post : List (Nat × Hdl))
    (l : Nat) (p : Hdl) (ctx : DataProductDto) (st st1 st2 : ModelSt)
    (e : ErrKind) (tr : List Nat)
    (hpre : Handler.handleTrace pre ctx st = (tr, .ok st1))
    (hp : p ctx st1 = .err e st2) :
    Handler.handleTrace (pre ++ (l, p) :: post) ctx st =
      (tr ++ [l], .err e st2) := by
  induction pre generalizing st tr with
  | nil =>
    simp only [Handler.handleTrace, Prod.mk.injEq] at hpre
    obtain ⟨h1, h2⟩ := hpre
    subst h1
    cases h2
    simp [Handler.handleTrace, hp]
  | cons q pre ih =>
    obtain ⟨lq, pq⟩ := q
    cases hq : pq ctx st with
    | ok stq =>
      rcases hrest : Handler.handleTrace pre ctx stq with ⟨trr, rr⟩
      simp only [Handler.handleTrace, hq, hrest, Prod.mk.injEq] at hpre
      obtain ⟨h1, h2⟩ := hpre
      subst h1
      subst h2
      simp only [List.cons_append, Handler.handleTrace, hq, List.append_eq]
      rw [ih stq trr hrest]
    | err e' st' =>
      simp [Handler.handleTrace, hq] at hpre
    | fuelOut st' =>
      simp [Handler.handleTrace, hq] at hpre

/-- Witness for C4 at a concrete chain audit, validate, message with a
context whose name is absent: the validate stage raises, the message stage
never runs, and the error is the chain's result. -/
theorem handler_chain_halts_at_first_error_witness :
    Handler.handleTrace
      [(0, AuditUpdateHandler.process), (1, ValidateUpdateHandler.process),
       (2, MessageUpdateHandler.process)] dtoNoName st0 =
      ([0, 1], .err .validationFailed st0) :=
  handler_chain_halts_at_first_error [(0, AuditUpdateHandler.process)]
    [(2, MessageUpdateHandler.process)] 1 ValidateUpdateHandler.process
    dtoNoName st0 st0 st0 .validationFailed [0] (by decide) (by decide)

/-- C3: the factory resolves v1 and v2 to the two distinct strategies, and
every other version token resolves to an unsupported-version error rather
than any fallback. -/
theorem factory_resolution_and_unsupported :
    DataProductStrategyFactory.getStrategy "v1" = .ok .v1 ∧
    DataProductStrategyFactory.getStrategy "v2" = .ok .v2 ∧
    StrategyTag.v1 ≠ StrategyTag.v2 ∧
    ∀ v : String, v ≠ "v1" → v ≠ "v2" →
      DataProductStrategyFactory.getStrategy v =
        .error (.unsupportedVersion v) := by
  refine ⟨rfl, rfl, fun h => StrategyTag.noConfusion h, ?_⟩
  intro v h1 h2
  simp [DataProductStrategyFactory.getStrategy, h1, h2]

/-- Witness for C3 at the unregistered token v3: resolution fails with the
unsupported-version error. -/
theorem factory_resolution_and_unsupported_witness :
    DataProductStrategyFactory.getStrategy "v3" =
      .error (.unsupportedVersion "v3") :=
  factory_resolution_and_unsupported.2.2.2 "v3" (by decide) (by decide)

/-- C8: DataProductStrategyV2.create delegates to DataProductStrategyV1's
create unchanged — the two agree at every DTO and every store. -/
theorem v2_create_delegates_to_v1 (dto : DataProductDto) (st : ModelSt) :
    DataProductStrategyV2.create dto st = DataProductStrategyV1.create dto st :=
  rfl

/-- C10: the audit-create and message-update stages only log — their process
always completes with the store unchanged, so linking either stage into any
chain can never halt it. -/
theorem audit_message_stages_never_fail (dto : DataProductDto) (st : ModelSt)
    (rest : List Hdl) :
    AuditCreateHandler.process dto st = .ok st ∧
    MessageUpdateHandler.process dto st = .ok st ∧
    Handler.handle (AuditCreateHandler.process :: rest) dto st =
      Handler.handle rest dto st ∧
    Handler.handle (MessageUpdateHandler.process :: rest) dto st =
      Handler.handle rest dto st :=
  ⟨rfl, rfl, rfl, rfl⟩

/-- C1 evaluated at the failing input: with record 1 stored under the name
Catalog A and a DTO renaming it, the v1 business handler succeeds and
persists the rename; the v2 business handler also persists the rename (the
store afterwards holds the name Renamed) and never raises a ValidationError
— instead, both the v2 handler's handle and the whole v2 strategy update
exhaust any fuel bound re-invoking handle on themselves. -/
theorem v2_rename_persists_and_spins :
    BusinessUpdateHandler.process dtoRen stCat = .ok stRen ∧
    BusinessUpdateHandlerV2.handle auditMessageHdl 4 dtoRen stCat =
      .fuelOut stRen ∧
    DataProductStrategyV2.update 4 "1" dtoRenBody stCat = .fuelOut stRen ∧
    stRen.docs.lookup "1" =
      some { name := some "Renamed", infoport := some "X" } := by
  refine ⟨by decide, by decide, ?_, by decide⟩
  decide

/-- C2 counterexample: on the empty store, the v1 update succeeds and
returns a record even though the Repository holds no canonical record to
re-read — the returned value is the in-flight context object, not a
Repository re-read. -/
theorem v1_update_not_reread_counterexample :
    DataProductStrategyV1.update "a" dtoNP st0 = .ok dtoNPa st0 ∧
    DataProductRepository.findById "a" st0 = none := by
  decide

/-- C2 (amended): for the v1 strategy, update stamps the identifier onto the
context, executes the update chain validate, business, audit, message, and
returns the identifier-stamped context DTO itself — together with the store
exactly as the business stage's Repository.update left it — without any
re-read of the Repository. -/
theorem v1_update_returns_stamped_context (i : String)
    (dto : DataProductDto) (st : ModelSt)
    (hn : falsy dto.name = false) (hp : falsy dto.infoport = false) :
    DataProductStrategyV1.update i dto st =
      .ok { dto with id := some i }
        (DataProductRepository.update (some i) { dto with id := some i }
          st).2 := by
  simp [DataProductStrategyV1.update, v1UpdateChain, Handler.handle,
    ValidateUpdateHandler.process, BusinessUpdateHandler.process,
    AuditUpdateHandler.process, MessageUpdateHandler.process, hn, hp]

/-- Witness for C2's amended theorem at a concrete input. -/
theorem v1_update_returns_stamped_context_witness :
    DataProductStrategyV1.update "7" dtoNP stCat =
      .ok { dtoNP with id := some "7" }
        (DataProductRepository.update (some "7") { dtoNP with id := some "7" }
          stCat).2 :=
  v1_update_returns_stamped_context "7" dtoNP stCat (by decide) (by decide)

/-- C5 counterexample: with identifier x absent from the store, the v1
update succeeds — every stage (validate 0, business 1, audit 2, message 3)
executes and no NotFoundError is raised — and the repository delete resolves
leaving the store unchanged. -/
theorem unknown_id_no_notfound_counterexample :
    DataProductStrategyV1.update "x" dtoNP st0 = .ok dtoXa st0 ∧
    Handler.handleTrace v1UpdateChainL dtoXa st0 = ([0, 1, 2, 3], .ok st0) ∧
    DataProductRepository.delete "x" st0 = st0 := by
  decide

/-- C5 (amended): for every identifier not present in the Repository, the
repository's update resolves with null and its delete resolves without
raising; consequently a v1 update whose DTO passes validation succeeds end
to end — all four stages including audit and message execute — instead of
failing with a NotFoundError. -/
theorem unknown_id_update_delete_silently_succeed (i : String)
    (dto : DataProductDto) (st : ModelSt)
    (hmem : st.docs.lookup i = none)
    (hn : falsy dto.name = false) (hp : falsy dto.infoport = false) :
    DataProductRepository.update (some i) dto st = (none, st) ∧
    DataProductRepository.delete i st = st ∧
    Handler.handleTrace v1UpdateChainL { dto with id := some i } st =
      ([0, 1, 2, 3], .ok st) ∧
    DataProductStrategyV1.update i dto st =
      .ok { dto with id := some i } st := by
  have hru : ∀ d : DataProductDto,
      DataProductRepository.update (some i) d st = (none, st) := by
    intro d
    simp [DataProductRepository.update, modelFindByIdAndUpdate, hmem]
  refine ⟨hru dto, ?_, ?_, ?_⟩
  · simp [DataProductRepository.delete, modelFindByIdAndDelete, hmem]
  · simp [v1UpdateChainL, Handler.handleTrace, ValidateUpdateHandler.process,
      BusinessUpdateHandler.process, AuditUpdateHandler.process,
      MessageUpdateHandler.process, hn, hp, hru]
  · simp [DataProductStrategyV1.update, v1UpdateChain, Handler.handle,
      ValidateUpdateHandler.process, BusinessUpdateHandler.process,
      AuditUpdateHandler.process, MessageUpdateHandler.process, hn, hp, hru]

/-- Witness for C5's amended theorem at a concrete absent identifier. -/
theorem unknown_id_update_delete_silently_succeed_witness :
    DataProductRepository.update (some "x") dtoNP st0 = (none, st0) ∧
    DataProductRepository.delete "x" st0 = st0 ∧
    Handler.handleTrace v1UpdateChainL { dtoNP with id := some "x" } st0 =
      ([0, 1, 2, 3], .ok st0) ∧
    DataProductStrategyV1.update "x" dtoNP st0 =
      .ok { dtoNP with id := some "x" } st0 :=
  unknown_id_update_delete_silently_succeed "x" dtoNP st0 (by decide)
    (by decide) (by decide)

/-- C6 evaluated at the failing input: v1 create with a DTO carrying a
client-chosen identifier and client-chosen timestamps runs the create chain
(validate, empty business stub, audit) and returns the client's DTO
unchanged — identifier and timestamps echoed from client input — with the
store untouched: nothing is system-assigned or persisted. -/
theorem create_echoes_client_id_and_timestamps :
    DataProductStrategyV1.create dtoClient st0 = .ok dtoClient st0 ∧
    dtoClient.id = some "client-chosen-id" ∧
    dtoClient.createdAt = some "1999-01-01" := by
  refine ⟨?_, by decide, by decide⟩
  decide

/-- C7 counterexample: the Validate-Update handler accepts a DTO with no
identifier, and accepts a DTO whose trimmed name has fewer than three
characters — it enforces neither of the claimed conditions. -/
theorem validate_update_misses_spec_checks :
    ValidateUpdateHandler.process dtoNoId st0 = .ok st0 ∧
    ValidateUpdateHandler.process dtoShortName st0 = .ok st0 := by
  decide

/-- C7 (amended): the Validate-Update handler raises a validation error
exactly when the name is absent or empty or the infoport is absent or
empty; its result never depends on the identifier; and it never touches the
Repository — it either returns the store unchanged or raises, nothing
else. -/
theorem validate_update_characterization (dto : DataProductDto)
    (st : ModelSt) :
    (ValidateUpdateHandler.process dto st = .err .validationFailed st ↔
      (dto.name = none ∨ dto.name = some "" ∨ dto.infoport = none ∨
        dto.infoport = some "")) ∧
    (∀ j : Option String,
      ValidateUpdateHandler.process { dto with id := j } st =
        ValidateUpdateHandler.process dto st) ∧
    (ValidateUpdateHandler.process dto st = .ok st ∨
      ValidateUpdateHandler.process dto st = .err .validationFailed st) := by
  refine ⟨?_, fun j => rfl, ?_⟩
  · rcases hname : dto.name with _ | s
    · simp [ValidateUpdateHandler.process, falsy, hname]
    · rcases hport : dto.infoport with _ | t
      · simp [ValidateUpdateHandler.process, falsy, hname, hport]
      · by_cases hs : s = "" <;> by_cases ht : t = "" <;>
          simp [ValidateUpdateHandler.process, falsy, hname, hport, hs, ht]
  · by_cases hc : (falsy dto.name || falsy dto.infoport) = true
    · right
      simp [ValidateUpdateHandler.process, hc]
    · left
      simp only [Bool.not_eq_true] at hc
      simp [ValidateUpdateHandler.process, hc]

/-- Witness for C7's amended theorem: a DTO without a name is rejected. -/
theorem validate_update_characterization_witness :
    ValidateUpdateHandler.process dtoNoName st0 = .err .validationFailed st0 :=
  (validate_update_characterization dtoNoName st0).1.mpr (Or.inl rfl)
